import Mathlib

/-!
Verification of the `soft-power` battery power controller
(`code-attiny13.c` and `code-attiny4_5_9_10.c`).

The core is the power state machine `PollState`, called once per 10 ms poll
cycle, plus the millisecond busy-wait `WaitMs`.  We embed the machine as a
pure step function over an explicit state record; the two hardware variants
are transcribed separately (`PollState13`, `PollState10`) so they can be
compared.  Machine integers are modelled as `Nat` with explicit `% 2^16`
where a C `uint16_t` increment may wrap.

GPIO mapping used throughout (from the `#define`s at the top of both files):
* `PORTB` bit `GPO_PWR` (pin 1) is the power switch, active low:
  bit set = power OFF, bit cleared = power ON.  We model just that bit as
  the Boolean field `portbPwr` (`true` = bit set = power off).
* `DDRB` bit `GPIO_CPU_BUTTON` (pin 3) selects the tri-state "repeat
  button" output: bit set = output driven low, bit cleared = input /
  high impedance (external pull-up).  Modelled as `ddrbCpuButton`
  (`true` = bit set = driven low).
* `PINB` bit `GPI_BUTTON` (pin 0) low means the button is pressed, and
  `PINB` bit `GPI_CPU_CTRL` (pin 2) high means the host requests power.
  Inputs are modelled at the logical level (`buttonPressed`,
  `hostPowerRequest`), absorbing those electrical polarities.
-/

/-- The tri-state "repeat button" line toward the host module. -/
inductive TriState where
  | HighImpedance : TriState
  | DrivenLow : TriState
deriving DecidableEq, Repr

/-- Logical inputs sampled once per poll cycle.
`buttonPressed` is `(PINB & BIT(GPI_BUTTON)) == 0`;
`hostPowerRequest` is `(PINB & BIT(GPI_CPU_CTRL)) != 0`. -/
structure Inputs where
  buttonPressed : Bool
  hostPowerRequest : Bool
deriving DecidableEq, Repr

/-- Constant `#define POLL_DELAY_MS 10` (both files). -/
def POLL_DELAY_MS : Nat := 10

/-- Constant `#define DELAY_1S_CNT 85  // 1000/POLL_DELAY_MS (tested value)`
(both files define it as the literal 85). -/
def DELAY_1S_CNT : Nat := 85

/-- Constant `#define PWR_STATE_off 0` -/
def PWR_STATE_off : Nat := 0

/-- Constant `#define PWR_STATE_on 1` -/
def PWR_STATE_on : Nat := 1

/-- Constant `#define PWR_STATE_on_off 2` (power request off / turning off) -/
def PWR_STATE_on_off : Nat := 2

/-- The controller state touched by `PollState`: the global `pwrCtrlState`
(`uint8_t`), the two `static uint16_t` counters `btnTime` and `waitTimer`,
and the two modelled output bits.  `sleepReset` records that the
`PWR_STATE_on_off` settle branch ran (pin-change wake setup, `sleep_cpu()`
and the watchdog-forced restart); the hardware registers it writes
(`GIFR`/`GIMSK`/`MCUCR`/`WDTCR` on the ATTINY13, `PCIFR`/`PCICR`/`SMCR`/
`WDTCSR` on the ATTINY10) are not otherwise observable to the state
machine. -/
structure MachState where
  pwrCtrlState : Nat
  btnTime : Nat
  waitTimer : Nat
  portbPwr : Bool
  ddrbCpuButton : Bool
  sleepReset : Bool
deriving DecidableEq, Repr

/-- Output `PowerOutputEnabled`: the power switch output is active low, so power is
enabled exactly when the `PORTB` power bit is cleared. -/
def PowerOutputEnabled (s : MachState) : Bool := !s.portbPwr

/-- Output `HostButtonSignal`: driven low when the `DDRB` bit is set, high
impedance (external pull-up) when cleared. -/
def HostButtonSignal (s : MachState) : TriState :=
  if s.ddrbCpuButton then TriState.DrivenLow else TriState.HighImpedance

/-- One call of `PollState()` from `code-attiny13.c` (lines 64-139).
First the two counters are updated from the raw inputs (`btnTime++` /
`btnTime = 0`, then `waitTimer++`; both are `uint16_t`, hence the
`% 65536`), then the `switch (pwrCtrlState)`.  Note that in
`PWR_STATE_off` the three `if`s run in sequence with no `break` or `else`
between them, while in `PWR_STATE_on` the two power-off branches `break`
out of the `switch`. -/
def PollState13 (i : Inputs) (s : MachState) : MachState :=
  let s := if i.buttonPressed then { s with btnTime := (s.btnTime + 1) % 65536 }
           else { s with btnTime := 0 }
  let s := { s with waitTimer := (s.waitTimer + 1) % 65536 }
  if s.pwrCtrlState = PWR_STATE_off then
    let s := if s.waitTimer > 10 * DELAY_1S_CNT then
               { s with portbPwr := true, pwrCtrlState := PWR_STATE_on_off }
             else s
    let s := if s.btnTime > 1 * DELAY_1S_CNT then
               { s with portbPwr := false, waitTimer := 0 }
             else s
    let s := if i.hostPowerRequest then
               { s with portbPwr := false, pwrCtrlState := PWR_STATE_on }
             else s
    s
  else if s.pwrCtrlState = PWR_STATE_on then
    if i.hostPowerRequest = false then
      { s with portbPwr := true, ddrbCpuButton := false, waitTimer := 0,
               pwrCtrlState := PWR_STATE_on_off }
    else if s.btnTime > 4 * DELAY_1S_CNT then
      { s with portbPwr := true, ddrbCpuButton := false, waitTimer := 0,
               pwrCtrlState := PWR_STATE_on_off }
    else if s.btnTime > 0 then
      { s with ddrbCpuButton := true }
    else
      { s with ddrbCpuButton := false }
  else if s.pwrCtrlState = PWR_STATE_on_off then
    if s.waitTimer > 3 * DELAY_1S_CNT then
      { s with sleepReset := true }
    else s
  else s

/-- One call of `PollState()` from `code-attiny4_5_9_10.c` (lines 61-136),
transcribed independently.  The modelled fragment is line-for-line the
same as the ATTINY13 one; the variants differ only inside the settle
branch's hardware register writes and post-sleep wait, which are
summarised by `sleepReset` in both. -/
def PollState10 (i : Inputs) (s : MachState) : MachState :=
  let s := if i.buttonPressed then { s with btnTime := (s.btnTime + 1) % 65536 }
           else { s with btnTime := 0 }
  let s := { s with waitTimer := (s.waitTimer + 1) % 65536 }
  if s.pwrCtrlState = PWR_STATE_off then
    let s := if s.waitTimer > 10 * DELAY_1S_CNT then
               { s with portbPwr := true, pwrCtrlState := PWR_STATE_on_off }
             else s
    let s := if s.btnTime > 1 * DELAY_1S_CNT then
               { s with portbPwr := false, waitTimer := 0 }
             else s
    let s := if i.hostPowerRequest then
               { s with portbPwr := false, pwrCtrlState := PWR_STATE_on }
             else s
    s
  else if s.pwrCtrlState = PWR_STATE_on then
    if i.hostPowerRequest = false then
      { s with portbPwr := true, ddrbCpuButton := false, waitTimer := 0,
               pwrCtrlState := PWR_STATE_on_off }
    else if s.btnTime > 4 * DELAY_1S_CNT then
      { s with portbPwr := true, ddrbCpuButton := false, waitTimer := 0,
               pwrCtrlState := PWR_STATE_on_off }
    else if s.btnTime > 0 then
      { s with ddrbCpuButton := true }
    else
      { s with ddrbCpuButton := false }
  else if s.pwrCtrlState = PWR_STATE_on_off then
    if s.waitTimer > 3 * DELAY_1S_CNT then
      { s with sleepReset := true }
    else s
  else s

/-- The state right after `main`'s initialisation: globals and statics are
zero-initialised (`pwrCtrlState = 0 = PWR_STATE_off`, `btnTime = 0`,
`waitTimer = 0`), `main` sets the power bit (`PORTB |= BIT(GPO_PWR)`, power
off) and leaves the `GPIO_CPU_BUTTON` direction bit cleared (tri-state). -/
def initState : MachState :=
  { pwrCtrlState := PWR_STATE_off, btnTime := 0, waitTimer := 0,
    portbPwr := true, ddrbCpuButton := false, sleepReset := false }

/-- Runs `n` consecutive poll cycles of the ATTINY13 machine under a constant
input (the main loop calls `PollState` once per poll period). -/
def stepsConst (i : Inputs) : Nat → MachState → MachState
  | 0, s => s
  | n + 1, s => stepsConst i n (PollState13 i s)

/-- Poll cycles of the ATTINY13 machine driven by a list of per-cycle
inputs (head first). -/
def runList : List Inputs → MachState → MachState
  | [], s => s
  | i :: l, s => runList l (PollState13 i s)

/-!  ## The millisecond busy-wait `WaitMs`

Time is measured in timer ticks (16 ticks per millisecond in both variants:
128 kHz / 8).  A busy-wait loop is modelled as the first instant at or after
its entry time at which its exit condition holds, found by stepping one tick
at a time under a fuel bound (one full counter period of fuel is always
enough for the loops below); straight-line code between loops takes no
time, and a loop observes the counter at every tick. -/

/-- First time `u ≥ t` with `done u = true`, searched one tick at a time for
at most `fuel` ticks (returns the end of the window if never satisfied). -/
def busyWait (done : Nat → Bool) : Nat → Nat → Nat
  | 0, t => t
  | fuel + 1, t => if done t then t else busyWait done fuel (t + 1)

/-- Loop body of the ATTINY13 `WaitMs` (`code-attiny13.c` lines 34-52):
`m` iterations of the `for` remain, `cnt` is the current 8-bit target,
`t` is the current time in ticks.  `TCNT0` was reset to 0 at `t = 0`, so
the free-running 8-bit counter reads `t % 256`.  When `cnt == 0` the loop
is `while (TCNT0 > 200);` (wait for wrap), otherwise `while (TCNT0 < cnt);`;
then `cnt += 16` wraps as `uint8_t`. -/
def WaitMs13.go : Nat → Nat → Nat → Nat
  | 0, _, t => t
  | m + 1, cnt, t =>
      let t := if cnt = 0 then busyWait (fun u => decide (u % 256 ≤ 200)) 256 t
               else busyWait (fun u => decide (cnt ≤ u % 256)) 256 t
      WaitMs13.go m ((cnt + 16) % 256) t

/-- Function `WaitMs(ms)` from `code-attiny13.c`: resets `TCNT0 = 0`, sets
`cnt = 16`, then runs the per-millisecond loop.  Returns the total number
of elapsed timer ticks when the call returns. -/
def WaitMs13 (ms : Nat) : Nat :=
  WaitMs13.go ms 16 0

/-- Function `WaitMs(ms)` from `code-attiny4_5_9_10.c` (lines 37-49).  The 16-bit
counter free-runs: it reads `(c0 + t) % 65536` at time `t`, where `c0` is
its value when the call starts.  `cnt = TCNT0 + ms*16` is computed in
`uint16_t`; if `cnt < TCNT0` the sum wrapped and the code first waits for
the counter to wrap (`while (TCNT0 > 1);`), then `while (TCNT0 < cnt);`.
Returns the total number of elapsed timer ticks when the call returns. -/
def WaitMs10 (c0 ms : Nat) : Nat :=
  let cnt := (c0 + ms * 16) % 65536
  let t := if cnt < c0 then busyWait (fun u => decide ((c0 + u) % 65536 ≤ 1)) 65536 0
           else 0
  busyWait (fun u => decide (cnt ≤ (c0 + u) % 65536)) 65536 t

/-!  ## Helper lemmas -/

-- Sanity examples (concrete behaviour of the definitions).
example : (PollState13 ⟨false, true⟩ initState).pwrCtrlState = PWR_STATE_on := by decide
example : PowerOutputEnabled (PollState13 ⟨false, true⟩ initState) = true := by decide
example : (PollState13 ⟨true, false⟩ initState).btnTime = 1 := by decide
example : WaitMs13 2 = 32 := by decide
example : WaitMs10 65530 2 = 32 := by decide

theorem stepsConst_succ_back (i : Inputs) (n : Nat) (s : MachState) :
    stepsConst i (n + 1) s = PollState13 i (stepsConst i n s) := by
  induction n generalizing s with
  | zero => rfl
  | succ n ih =>
      show stepsConst i (n + 1) (PollState13 i s) = _
      rw [ih]
      rfl

/-- In `Off` with both inputs inactive, the machine just counts idle
cycles: after `n ≤ 10*DELAY_1S_CNT` cycles from the initial state nothing
has changed except `waitTimer = n`. -/
theorem off_idle_run (n : Nat) (hn : n ≤ 10 * DELAY_1S_CNT) :
    stepsConst ⟨false, false⟩ n initState =
      { pwrCtrlState := PWR_STATE_off, btnTime := 0, waitTimer := n,
        portbPwr := true, ddrbCpuButton := false, sleepReset := false } := by
  induction n with
  | zero => rfl
  | succ n ih =>
      rw [stepsConst_succ_back, ih (Nat.le_of_succ_le hn)]
      simp only [PollState13, PWR_STATE_off, PWR_STATE_on, PWR_STATE_on_off, DELAY_1S_CNT]
      have h1 : (n + 1) % 65536 = n + 1 := by
        simp only [DELAY_1S_CNT] at hn; omega
      have h2 : ¬ n + 1 > 10 * 85 := by
        simp only [DELAY_1S_CNT] at hn; omega
      simp [h1, h2]

/-- In `On` with the button held and the host still requesting power, the
machine stays in `On` while `btnTime` climbs: starting from `btnTime = b`,
after `k` cycles with `b + k ≤ 4*DELAY_1S_CNT` the state is still `On`
with `btnTime = b + k`. -/
theorem on_hold_run (k : Nat) :
    ∀ (b : Nat) (s : MachState), s.pwrCtrlState = PWR_STATE_on → s.btnTime = b →
      b + k ≤ 4 * DELAY_1S_CNT →
      (stepsConst ⟨true, true⟩ k s).pwrCtrlState = PWR_STATE_on ∧
      (stepsConst ⟨true, true⟩ k s).btnTime = b + k ∧
      (stepsConst ⟨true, true⟩ k s).portbPwr = s.portbPwr := by
  induction k with
  | zero =>
      intro b s hst hb _
      exact ⟨hst, by simpa [stepsConst] using hb, rfl⟩
  | succ k ih =>
      intro b s hst hb hbk
      simp only [stepsConst]
      have hb1 : (b + 1) % 65536 = b + 1 := by
        simp only [DELAY_1S_CNT] at hbk; omega
      have hstep : PollState13 ⟨true, true⟩ s =
          { s with btnTime := b + 1, waitTimer := (s.waitTimer + 1) % 65536,
                   ddrbCpuButton := true } := by
        simp only [PollState13, PWR_STATE_off, PWR_STATE_on, PWR_STATE_on_off, hst, hb, hb1,
          DELAY_1S_CNT]
        have h2 : ¬ b + 1 > 4 * 85 := by simp only [DELAY_1S_CNT] at hbk; omega
        have h3 : b + 1 > 0 := by omega
        simp [h2, h3]
      rw [hstep]
      have h := ih (b + 1) { s with btnTime := b + 1, waitTimer := (s.waitTimer + 1) % 65536,
                                    ddrbCpuButton := true } hst rfl (by omega)
      exact ⟨h.1, by rw [h.2.1]; omega, h.2.2⟩

/-- Applying `PollState13` to a state in `PWR_STATE_on_off` only updates the
counters and possibly `sleepReset`; in particular `waitTimer` is
incremented (mod 2^16) regardless of the settle guard. -/
theorem turningoff_waitTimer (i : Inputs) (s : MachState)
    (hst : s.pwrCtrlState = PWR_STATE_on_off) :
    (PollState13 i s).waitTimer = (s.waitTimer + 1) % 65536 := by
  simp only [PollState13, hst, PWR_STATE_off, PWR_STATE_on, PWR_STATE_on_off]
  split_ifs <;> simp_all

/-- Outside `PWR_STATE_on`, no branch of the `switch` touches the
`GPIO_CPU_BUTTON` direction bit. -/
theorem ddrb_unchanged (i : Inputs) (s : MachState)
    (hnot : s.pwrCtrlState ≠ PWR_STATE_on) :
    (PollState13 i s).ddrbCpuButton = s.ddrbCpuButton := by
  have hnot1 : ¬ s.pwrCtrlState = 1 := by simpa [PWR_STATE_on] using hnot
  cases hb : i.buttonPressed <;>
  by_cases h0 : s.pwrCtrlState = 0 <;>
  by_cases h2 : s.pwrCtrlState = 2 <;>
    simp [PollState13, hb, h0, h2, hnot1, apply_ite MachState.ddrbCpuButton,
      PWR_STATE_off, PWR_STATE_on, PWR_STATE_on_off, DELAY_1S_CNT]

/-- Case `On`, host dropped its power request: the first `if` fires and breaks. -/
theorem on_host_drop (i : Inputs) (s : MachState)
    (hst : s.pwrCtrlState = PWR_STATE_on) (hreq : i.hostPowerRequest = false) :
    PollState13 i s =
      { s with btnTime := if i.buttonPressed then (s.btnTime + 1) % 65536 else 0,
               waitTimer := 0, portbPwr := true, ddrbCpuButton := false,
               pwrCtrlState := PWR_STATE_on_off } := by
  cases hb : i.buttonPressed <;>
    simp [PollState13, hst, hreq, hb, PWR_STATE_off, PWR_STATE_on, PWR_STATE_on_off]

/-- Case `On`, host still requesting, long button hold: the second `if` fires
and breaks. -/
theorem on_button_long (i : Inputs) (s : MachState)
    (hst : s.pwrCtrlState = PWR_STATE_on) (hreq : i.hostPowerRequest = true)
    (hb : i.buttonPressed = true)
    (hbig : (s.btnTime + 1) % 65536 > 4 * DELAY_1S_CNT) :
    PollState13 i s =
      { s with btnTime := (s.btnTime + 1) % 65536, waitTimer := 0,
               portbPwr := true, ddrbCpuButton := false,
               pwrCtrlState := PWR_STATE_on_off } := by
  simp only [DELAY_1S_CNT] at hbig
  simp [PollState13, hst, hreq, hb, hbig, PWR_STATE_off, PWR_STATE_on, PWR_STATE_on_off,
    DELAY_1S_CNT]

/-- Case `On`, host still requesting, button held but below the 4 s threshold:
the tri-state output is driven low. -/
theorem on_button_short (i : Inputs) (s : MachState)
    (hst : s.pwrCtrlState = PWR_STATE_on) (hreq : i.hostPowerRequest = true)
    (hb : i.buttonPressed = true)
    (hsmall : (s.btnTime + 1) % 65536 ≤ 4 * DELAY_1S_CNT)
    (hpos : 0 < (s.btnTime + 1) % 65536) :
    PollState13 i s =
      { s with btnTime := (s.btnTime + 1) % 65536,
               waitTimer := (s.waitTimer + 1) % 65536, ddrbCpuButton := true } := by
  simp [PollState13, hst, hreq, hb, hpos, PWR_STATE_off, PWR_STATE_on, PWR_STATE_on_off,
    DELAY_1S_CNT]
  simp only [DELAY_1S_CNT] at hsmall
  omega

/-- Case `On`, host still requesting, button released: the tri-state output is
released to high impedance. -/
theorem on_button_released (i : Inputs) (s : MachState)
    (hst : s.pwrCtrlState = PWR_STATE_on) (hreq : i.hostPowerRequest = true)
    (hb : i.buttonPressed = false) :
    PollState13 i s =
      { s with btnTime := 0, waitTimer := (s.waitTimer + 1) % 65536,
               ddrbCpuButton := false } := by
  simp [PollState13, hst, hreq, hb, PWR_STATE_off, PWR_STATE_on, PWR_STATE_on_off,
    DELAY_1S_CNT]

/-- Case `On`, host still requesting, button held but the 16-bit hold counter
just wrapped to 0: the `btnTime > 0` test fails and the tri-state output
is released. -/
theorem on_button_wrapped (i : Inputs) (s : MachState)
    (hst : s.pwrCtrlState = PWR_STATE_on) (hreq : i.hostPowerRequest = true)
    (hb : i.buttonPressed = true) (hz : (s.btnTime + 1) % 65536 = 0) :
    PollState13 i s =
      { s with btnTime := 0, waitTimer := (s.waitTimer + 1) % 65536,
               ddrbCpuButton := false } := by
  simp [PollState13, hst, hreq, hb, hz, PWR_STATE_off, PWR_STATE_on, PWR_STATE_on_off,
    DELAY_1S_CNT]

/-- Case `Off` with the host requesting power: whatever the two earlier `if`s
did, the third one runs afterwards and leaves the machine in `On` with the
power output enabled. -/
theorem off_host_request (i : Inputs) (s : MachState)
    (hst : s.pwrCtrlState = PWR_STATE_off) (hreq : i.hostPowerRequest = true) :
    (PollState13 i s).pwrCtrlState = PWR_STATE_on ∧
    (PollState13 i s).portbPwr = false := by
  cases hb : i.buttonPressed <;>
    simp [PollState13, hst, hb, hreq, PWR_STATE_off, PWR_STATE_on, PWR_STATE_on_off,
      DELAY_1S_CNT]

/-- Case `PWR_STATE_on_off` with the settle threshold not yet reached: only the
two counters advance. -/
theorem turningoff_small (i : Inputs) (s : MachState)
    (hst : s.pwrCtrlState = PWR_STATE_on_off)
    (hsmall : (s.waitTimer + 1) % 65536 ≤ 3 * DELAY_1S_CNT) :
    PollState13 i s =
      { s with btnTime := if i.buttonPressed then (s.btnTime + 1) % 65536 else 0,
               waitTimer := (s.waitTimer + 1) % 65536 } := by
  have hng : ¬ ((s.waitTimer + 1) % 65536 > 3 * DELAY_1S_CNT) := by
    simp only [DELAY_1S_CNT] at *; omega
  cases hb : i.buttonPressed <;>
    simp [PollState13, hst, hb, hng, PWR_STATE_off, PWR_STATE_on, PWR_STATE_on_off]

/-- The `btnTime` update happens before the `switch` and no branch writes
`btnTime`, so the post-cycle value depends only on the raw button input. -/
theorem btnTime_update (i : Inputs) (s : MachState) :
    (PollState13 i s).btnTime =
      if i.buttonPressed then (s.btnTime + 1) % 65536 else 0 := by
  cases hb : i.buttonPressed
  · unfold PollState13
    rw [hb]
    simp only [Bool.false_eq_true, if_false]
    split_ifs <;> rfl
  · unfold PollState13
    rw [hb]
    simp only [if_true]
    split_ifs <;> rfl

/-- The output-signal invariant is preserved by one poll cycle: the
tri-state output can only be driven low in `PWR_STATE_on` with a nonzero
hold counter. -/
theorem inv_step (i : Inputs) (s : MachState)
    (h : s.ddrbCpuButton = true → s.pwrCtrlState = PWR_STATE_on ∧ s.btnTime ≠ 0) :
    (PollState13 i s).ddrbCpuButton = true →
      (PollState13 i s).pwrCtrlState = PWR_STATE_on ∧ (PollState13 i s).btnTime ≠ 0 := by
  intro hdd
  by_cases hon : s.pwrCtrlState = PWR_STATE_on
  case neg =>
    rw [ddrb_unchanged i s hon] at hdd
    exact absurd (h hdd).1 hon
  case pos =>
    by_cases hreq : i.hostPowerRequest = true
    · cases hb : i.buttonPressed
      · rw [on_button_released i s hon hreq hb] at hdd
        simp at hdd
      · by_cases hbig : 4 * DELAY_1S_CNT < (s.btnTime + 1) % 65536
        · rw [on_button_long i s hon hreq hb hbig] at hdd
          simp at hdd
        · by_cases hz : (s.btnTime + 1) % 65536 = 0
          · rw [on_button_wrapped i s hon hreq hb hz] at hdd
            simp at hdd
          · rw [on_button_short i s hon hreq hb (Nat.le_of_not_lt hbig)
              (Nat.pos_of_ne_zero hz)]
            exact ⟨hon, hz⟩
    · have hreq0 : i.hostPowerRequest = false := by simpa using hreq
      rw [on_host_drop i s hon hreq0] at hdd
      simp at hdd

/-- The output-signal invariant holds along any whole input trace. -/
theorem inv_run (l : List Inputs) :
    ∀ s : MachState,
      (s.ddrbCpuButton = true → s.pwrCtrlState = PWR_STATE_on ∧ s.btnTime ≠ 0) →
      ((runList l s).ddrbCpuButton = true →
        (runList l s).pwrCtrlState = PWR_STATE_on ∧ (runList l s).btnTime ≠ 0) := by
  induction l with
  | nil => intro s h; exact h
  | cons i l ih => intro s h; exact ih (PollState13 i s) (inv_step i s h)

/-!  ## Claim theorems -/

/-- C4: the ATTINY13 and ATTINY10 power state machines are functionally
identical: from any current state, counter values and inputs, one
`PollState` step of either variant produces the same next state, the same
counters and the same logical outputs. -/
theorem c4_variants_identical : ∀ (i : Inputs) (s : MachState),
    PollState13 i s = PollState10 i s :=
  fun _ _ => rfl

/-- C6: from the initial `Off` state with both inputs inactive for
`10*DELAY_1S_CNT + 1` consecutive cycles, the machine transitions to
`PWR_STATE_on_off` (TurningOff) with the power output disabled. -/
theorem c6_idle_auto_off :
    (stepsConst ⟨false, false⟩ (10 * DELAY_1S_CNT + 1) initState).pwrCtrlState
        = PWR_STATE_on_off ∧
    PowerOutputEnabled (stepsConst ⟨false, false⟩ (10 * DELAY_1S_CNT + 1) initState)
        = false := by
  rw [stepsConst_succ_back, off_idle_run (10 * DELAY_1S_CNT) (le_refl _)]
  decide

/-- C7: `btnTime` (ButtonHoldCounter) is 0 after any cycle where the button
reads released, and increments by exactly 1 per cycle while pressed, below
the `uint16_t` overflow horizon.  (`btnTime` is a `Nat` in the embedding,
mirroring a C unsigned integer: it cannot be negative.) -/
theorem c7_button_hold_counter (i : Inputs) (s : MachState) :
    (i.buttonPressed = false → (PollState13 i s).btnTime = 0) ∧
    (i.buttonPressed = true → s.btnTime + 1 < 65536 →
      (PollState13 i s).btnTime = s.btnTime + 1) := by
  constructor
  · intro hb
    unfold PollState13
    rw [hb]
    simp only [Bool.false_eq_true, if_false]
    split_ifs <;> rfl
  · intro hb hlt
    unfold PollState13
    rw [hb]
    simp only [if_true]
    have hm : (s.btnTime + 1) % 65536 = s.btnTime + 1 := Nat.mod_eq_of_lt hlt
    split_ifs <;> exact hm

/-- C8: in `On` with the host still requesting power, whenever the updated
hold counter is between 1 and `4*DELAY_1S_CNT` the tri-state output is
driven low this cycle; on a cycle where the button reads released (hold
counter back to 0) it is released to high impedance. -/
theorem c8_host_button_signal (i : Inputs) (s : MachState)
    (hst : s.pwrCtrlState = PWR_STATE_on) (hreq : i.hostPowerRequest = true) :
    (1 ≤ (PollState13 i s).btnTime → (PollState13 i s).btnTime ≤ 4 * DELAY_1S_CNT →
      HostButtonSignal (PollState13 i s) = TriState.DrivenLow) ∧
    (i.buttonPressed = false →
      HostButtonSignal (PollState13 i s) = TriState.HighImpedance) := by
  constructor
  · intro h1 h2
    cases hb : i.buttonPressed
    · rw [on_button_released i s hst hreq hb] at h1
      simp at h1
    · by_cases hbig : 4 * DELAY_1S_CNT < (s.btnTime + 1) % 65536
      · rw [on_button_long i s hst hreq hb hbig] at h2
        simp only [DELAY_1S_CNT] at h2 hbig
        exact absurd h2 (by omega)
      · by_cases hz : (s.btnTime + 1) % 65536 = 0
        · rw [on_button_wrapped i s hst hreq hb hz] at h1
          simp at h1
        · rw [on_button_short i s hst hreq hb (Nat.le_of_not_lt hbig)
            (Nat.pos_of_ne_zero hz)]
          simp [HostButtonSignal]
  · intro hb
    rw [on_button_released i s hst hreq hb]
    simp [HostButtonSignal]

/-- C8 witness: from `On` (reached by a host request), one pressed cycle
drives the line low; a released cycle leaves it at high impedance. -/
theorem c8_host_button_signal_witness :
    HostButtonSignal (PollState13 ⟨true, true⟩ (PollState13 ⟨false, true⟩ initState))
        = TriState.DrivenLow ∧
    HostButtonSignal (PollState13 ⟨false, true⟩ (PollState13 ⟨false, true⟩ initState))
        = TriState.HighImpedance :=
  ⟨(c8_host_button_signal ⟨true, true⟩ (PollState13 ⟨false, true⟩ initState)
      (by decide) rfl).1 (by decide) (by decide),
   (c8_host_button_signal ⟨false, true⟩ (PollState13 ⟨false, true⟩ initState)
      (by decide) rfl).2 rfl⟩

/-- C10: in `PWR_STATE_on_off` (TurningOff), while the incremented idle
counter is at most `3*DELAY_1S_CNT`, a poll cycle changes neither the
state variable nor either output (nor reaches the sleep/restart); only
the two counters advance. -/
theorem c10_turningoff_frame (i : Inputs) (s : MachState)
    (hst : s.pwrCtrlState = PWR_STATE_on_off)
    (hidle : (PollState13 i s).waitTimer ≤ 3 * DELAY_1S_CNT) :
    (PollState13 i s).pwrCtrlState = s.pwrCtrlState ∧
    PowerOutputEnabled (PollState13 i s) = PowerOutputEnabled s ∧
    HostButtonSignal (PollState13 i s) = HostButtonSignal s ∧
    (PollState13 i s).sleepReset = s.sleepReset ∧
    (PollState13 i s).btnTime = (if i.buttonPressed then (s.btnTime + 1) % 65536 else 0) ∧
    (PollState13 i s).waitTimer = (s.waitTimer + 1) % 65536 := by
  have hwt := turningoff_waitTimer i s hst
  rw [hwt] at hidle
  rw [turningoff_small i s hst hidle]
  simp [PowerOutputEnabled, HostButtonSignal]

/-- C10 witness: a fresh TurningOff state takes a no-change cycle. -/
theorem c10_turningoff_frame_witness :
    (PollState13 ⟨false, false⟩
        { pwrCtrlState := PWR_STATE_on_off, btnTime := 0, waitTimer := 0,
          portbPwr := true, ddrbCpuButton := false, sleepReset := false }).pwrCtrlState
      = PWR_STATE_on_off := by
  have h := c10_turningoff_frame ⟨false, false⟩
      { pwrCtrlState := PWR_STATE_on_off, btnTime := 0, waitTimer := 0,
        portbPwr := true, ddrbCpuButton := false, sleepReset := false } rfl (by decide)
  exact h.1

/-- C7 witness: one released cycle resets the hold counter; one pressed
cycle increments it. -/
theorem c7_button_hold_counter_witness :
    (PollState13 ⟨false, true⟩ initState).btnTime = 0 ∧
    (PollState13 ⟨true, true⟩ initState).btnTime = initState.btnTime + 1 :=
  ⟨(c7_button_hold_counter ⟨false, true⟩ initState).1 rfl,
   (c7_button_hold_counter ⟨true, true⟩ initState).2 rfl (by decide)⟩

/-- C1 counterexample: in `PWR_STATE_off` the listed conditions are NOT
applied first-match-only.  In this cycle the idle auto-power-off condition
(first in the table) matches -- `waitTimer` becomes `851 > 10*DELAY_1S_CNT`
-- and so does the button power-on condition, and BOTH actions take
effect: the final state is `PWR_STATE_on_off` (from the first action) with
the power output enabled and the idle counter reset (from the second).
Under first-match-only semantics the result would have been
`PWR_STATE_on_off` with the power output still disabled and
`waitTimer = 851`. -/
theorem c1_counterexample :
    (10 * DELAY_1S_CNT < 850 + 1 ∧ 1 * DELAY_1S_CNT < 85 + 1) ∧
    (PollState13 ⟨true, false⟩
        { pwrCtrlState := PWR_STATE_off, btnTime := 85, waitTimer := 850,
          portbPwr := true, ddrbCpuButton := false, sleepReset := false }).pwrCtrlState
      = PWR_STATE_on_off ∧
    PowerOutputEnabled (PollState13 ⟨true, false⟩
        { pwrCtrlState := PWR_STATE_off, btnTime := 85, waitTimer := 850,
          portbPwr := true, ddrbCpuButton := false, sleepReset := false }) = true ∧
    (PollState13 ⟨true, false⟩
        { pwrCtrlState := PWR_STATE_off, btnTime := 85, waitTimer := 850,
          portbPwr := true, ddrbCpuButton := false, sleepReset := false }).waitTimer
      = 0 := by
  decide

/-- C1 amended: each poll cycle updates the counters from the raw inputs
before any condition is evaluated (`btnTime` depends only on the raw
button input), and the conditions are checked top-to-bottom; but only in
`PWR_STATE_on` are the power-off conditions early exits.  In
`PWR_STATE_off` every matching condition's action is applied in sequence
(later writes overriding earlier ones): a true host request always leaves
the machine in `On` with power enabled, even on a cycle where the idle
auto-power-off condition also matched. -/
theorem c1_amended_evaluation_order (i : Inputs) (s : MachState) :
    ((PollState13 i s).btnTime =
      (if i.buttonPressed then (s.btnTime + 1) % 65536 else 0)) ∧
    (s.pwrCtrlState = PWR_STATE_off → i.hostPowerRequest = true →
      (PollState13 i s).pwrCtrlState = PWR_STATE_on ∧
      PowerOutputEnabled (PollState13 i s) = true) ∧
    (s.pwrCtrlState = PWR_STATE_on → i.hostPowerRequest = false →
      (PollState13 i s).pwrCtrlState = PWR_STATE_on_off ∧
      HostButtonSignal (PollState13 i s) = TriState.HighImpedance) := by
  refine ⟨btnTime_update i s, ?_, ?_⟩
  · intro hst hreq
    have h := off_host_request i s hst hreq
    exact ⟨h.1, by simp [PowerOutputEnabled, h.2]⟩
  · intro hst hreq
    rw [on_host_drop i s hst hreq]
    simp [HostButtonSignal]

/-- C1 amended witness: a pressed cycle increments the counter; a host
request in `Off` powers on; dropping the request in `On` powers off with
the tri-state line released. -/
theorem c1_amended_evaluation_order_witness :
    (PollState13 ⟨true, false⟩ initState).btnTime = 1 ∧
    (PollState13 ⟨false, true⟩ initState).pwrCtrlState = PWR_STATE_on ∧
    (PollState13 ⟨false, false⟩ (PollState13 ⟨false, true⟩ initState)).pwrCtrlState
      = PWR_STATE_on_off := by
  refine ⟨?_, ?_, ?_⟩
  · have h := (c1_amended_evaluation_order ⟨true, false⟩ initState).1
    simpa [initState] using h
  · exact ((c1_amended_evaluation_order ⟨false, true⟩ initState).2.1 rfl rfl).1
  · exact ((c1_amended_evaluation_order ⟨false, false⟩
      (PollState13 ⟨false, true⟩ initState)).2.2 (by decide) rfl).1

/-- C2 counterexample: the one-second constant is NOT
`round(1000/PollPeriod)`: `1000/POLL_DELAY_MS = 100` (the division is
exact, so floor = round) while `DELAY_1S_CNT = 85`. -/
theorem c2_counterexample : DELAY_1S_CNT ≠ 1000 / POLL_DELAY_MS := by decide

/-- C2 amended: the one-second constant is the calibrated literal 85 (the
source comments it as a "tested value" for the untrimmed 128 kHz
oscillator, not `1000/POLL_DELAY_MS = 100`), and each of the four table
thresholds behaves as the stated integer multiple of `DELAY_1S_CNT`
(10x idle auto-off in `Off`, 1x button power-on in `Off`, 4x button
power-off in `On`, 3x settle delay in TurningOff). -/
theorem c2_amended_thresholds :
    DELAY_1S_CNT = 85 ∧
    (∀ s : MachState, s.pwrCtrlState = PWR_STATE_off →
      ((PollState13 ⟨false, false⟩ s).pwrCtrlState = PWR_STATE_on_off ↔
        10 * DELAY_1S_CNT < (s.waitTimer + 1) % 65536)) ∧
    (∀ s : MachState, s.pwrCtrlState = PWR_STATE_off → s.portbPwr = true →
      ((PowerOutputEnabled (PollState13 ⟨true, false⟩ s) = true ∧
        (PollState13 ⟨true, false⟩ s).waitTimer = 0) ↔
        1 * DELAY_1S_CNT < (s.btnTime + 1) % 65536)) ∧
    (∀ s : MachState, s.pwrCtrlState = PWR_STATE_on →
      ((PollState13 ⟨true, true⟩ s).pwrCtrlState = PWR_STATE_on_off ↔
        4 * DELAY_1S_CNT < (s.btnTime + 1) % 65536)) ∧
    (∀ s : MachState, s.pwrCtrlState = PWR_STATE_on_off → s.sleepReset = false →
      ((PollState13 ⟨false, false⟩ s).sleepReset = true ↔
        3 * DELAY_1S_CNT < (s.waitTimer + 1) % 65536)) := by
  refine ⟨rfl, ?_, ?_, ?_, ?_⟩
  · intro s hst
    by_cases hg : 850 < (s.waitTimer + 1) % 65536 <;>
      simp [PollState13, hst, hg, PWR_STATE_off, PWR_STATE_on, PWR_STATE_on_off,
        DELAY_1S_CNT, apply_ite MachState.pwrCtrlState]
  · intro s hst hpw
    by_cases hg : 85 < (s.btnTime + 1) % 65536 <;>
      simp [PollState13, hst, hpw, hg, PowerOutputEnabled, PWR_STATE_off, PWR_STATE_on,
        PWR_STATE_on_off, DELAY_1S_CNT, apply_ite MachState.portbPwr,
        apply_ite MachState.waitTimer, apply_ite MachState.btnTime]
  · intro s hst
    by_cases hg : 340 < (s.btnTime + 1) % 65536 <;>
      simp [PollState13, hst, hg, PWR_STATE_off, PWR_STATE_on, PWR_STATE_on_off,
        DELAY_1S_CNT, apply_ite MachState.pwrCtrlState]
  · intro s hst hsr
    by_cases hg : 255 < (s.waitTimer + 1) % 65536 <;>
      simp [PollState13, hst, hsr, hg, PWR_STATE_off, PWR_STATE_on, PWR_STATE_on_off,
        DELAY_1S_CNT, apply_ite MachState.sleepReset]

/-- C2 amended witness: the 10x threshold fires at idle count 851 in
`Off`. -/
theorem c2_amended_thresholds_witness :
    (PollState13 ⟨false, false⟩
        { pwrCtrlState := PWR_STATE_off, btnTime := 0, waitTimer := 850,
          portbPwr := true, ddrbCpuButton := false, sleepReset := false }).pwrCtrlState
      = PWR_STATE_on_off :=
  (c2_amended_thresholds.2.1
    { pwrCtrlState := PWR_STATE_off, btnTime := 0, waitTimer := 850,
      portbPwr := true, ddrbCpuButton := false, sleepReset := false } rfl).mpr (by decide)

/-- C3: from any `On` state with the hold counter at 0, holding the button
for `4*DELAY_1S_CNT + 1` consecutive cycles with the host request true
throughout transitions to TurningOff with the power output disabled, the
tri-state line released, and the idle counter reset to 0 -- the long hold
overrides the concurrently true host power request. -/
theorem c3_long_hold_powers_off (s : MachState)
    (hst : s.pwrCtrlState = PWR_STATE_on) (hb : s.btnTime = 0) :
    (stepsConst ⟨true, true⟩ (4 * DELAY_1S_CNT + 1) s).pwrCtrlState = PWR_STATE_on_off ∧
    PowerOutputEnabled (stepsConst ⟨true, true⟩ (4 * DELAY_1S_CNT + 1) s) = false ∧
    HostButtonSignal (stepsConst ⟨true, true⟩ (4 * DELAY_1S_CNT + 1) s)
      = TriState.HighImpedance ∧
    (stepsConst ⟨true, true⟩ (4 * DELAY_1S_CNT + 1) s).waitTimer = 0 := by
  rw [stepsConst_succ_back]
  obtain ⟨h1, h2, -⟩ := on_hold_run (4 * DELAY_1S_CNT) 0 s hst hb (by omega)
  have hbig : 4 * DELAY_1S_CNT <
      ((stepsConst ⟨true, true⟩ (4 * DELAY_1S_CNT) s).btnTime + 1) % 65536 := by
    rw [h2]
    simp only [DELAY_1S_CNT]
    omega
  rw [on_button_long ⟨true, true⟩ (stepsConst ⟨true, true⟩ (4 * DELAY_1S_CNT) s)
    h1 rfl rfl hbig]
  simp [PowerOutputEnabled, HostButtonSignal]

/-- C3 witness: starting from the `On` state reached by a host request. -/
theorem c3_long_hold_powers_off_witness :
    (stepsConst ⟨true, true⟩ (4 * DELAY_1S_CNT + 1)
        (PollState13 ⟨false, true⟩ initState)).pwrCtrlState = PWR_STATE_on_off :=
  (c3_long_hold_powers_off (PollState13 ⟨false, true⟩ initState)
    (by decide) (by decide)).1

/-- C9: along every input trace from the initial state, the tri-state
output is driven low only if the machine is in `PWR_STATE_on` with a
nonzero hold counter; in `Off` and TurningOff (indeed in any state other
than `On`) it reads high impedance at the end of the cycle. -/
theorem c9_signal_invariant (l : List Inputs) :
    (HostButtonSignal (runList l initState) = TriState.DrivenLow →
      (runList l initState).pwrCtrlState = PWR_STATE_on ∧
      (runList l initState).btnTime ≠ 0) ∧
    ((runList l initState).pwrCtrlState ≠ PWR_STATE_on →
      HostButtonSignal (runList l initState) = TriState.HighImpedance) := by
  have hinv := inv_run l initState (by intro hcon; simp [initState] at hcon)
  constructor
  · intro hd
    cases hv : (runList l initState).ddrbCpuButton
    · simp [HostButtonSignal, hv] at hd
    · exact hinv hv
  · intro hne
    cases hv : (runList l initState).ddrbCpuButton
    · simp [HostButtonSignal, hv]
    · exact absurd (hinv hv).1 hne

/-- C9 witness: after a host power-on and one pressed cycle the line is
driven low and the invariant's conclusion holds. -/
theorem c9_signal_invariant_witness :
    (runList [⟨false, true⟩, ⟨true, true⟩] initState).pwrCtrlState = PWR_STATE_on ∧
    (runList [⟨false, true⟩, ⟨true, true⟩] initState).btnTime ≠ 0 :=
  (c9_signal_invariant [⟨false, true⟩, ⟨true, true⟩]).1 (by decide)

/-- A busy-wait loop observed at every tick exits at the first instant at
or after its entry time whose exit condition holds, provided that instant
is within the fuel window. -/
theorem busyWait_exit (done : Nat → Bool) :
    ∀ (fuel t T : Nat), t ≤ T → T < t + fuel →
      (∀ u, t ≤ u → u < T → done u = false) → done T = true →
      busyWait done fuel t = T := by
  intro fuel
  induction fuel with
  | zero => intro t T h1 h2 _ _; omega
  | succ fuel ih =>
      intro t T h1 h2 hfalse htrue
      simp only [busyWait]
      cases hd : done t
      case true =>
        simp only [if_true]
        by_contra hne
        have hlt : t < T := lt_of_le_of_ne h1 (fun he => hne he)
        rw [hfalse t le_rfl hlt] at hd
        cases hd
      case false =>
        simp only [Bool.false_eq_true, if_false]
        have hne : t ≠ T := by
          intro he
          rw [he, htrue] at hd
          cases hd
        exact ih (t + 1) T (by omega) (by omega)
          (fun u hu1 hu2 => hfalse u (by omega) hu2) htrue

/-- Invariant of the ATTINY13 `WaitMs` loop: entering iteration `k` (of
`m` remaining) at time `16*k` with the 8-bit target `16*(k+1) mod 256`,
the loop returns at time `16*(k+m)` -- each iteration waits exactly 16
ticks, including the iterations that wait across a counter wrap. -/
theorem waitms13_go_spec :
    ∀ (m k : Nat), WaitMs13.go m ((16 * (k + 1)) % 256) (16 * k) = 16 * (k + m) := by
  intro m
  induction m with
  | zero => intro k; simp [WaitMs13.go]
  | succ m ih =>
      intro k
      simp only [WaitMs13.go]
      have hexit : (if (16 * (k + 1)) % 256 = 0
            then busyWait (fun u => decide (u % 256 ≤ 200)) 256 (16 * k)
            else busyWait (fun u => decide ((16 * (k + 1)) % 256 ≤ u % 256)) 256 (16 * k))
          = 16 * (k + 1) := by
        by_cases hz : (16 * (k + 1)) % 256 = 0
        · rw [if_pos hz]
          apply busyWait_exit
          · omega
          · omega
          · intro u hu1 hu2
            simp only [decide_eq_false_iff_not, not_le]
            omega
          · simp only [decide_eq_true_eq]
            omega
        · rw [if_neg hz]
          apply busyWait_exit
          · omega
          · omega
          · intro u hu1 hu2
            simp only [decide_eq_false_iff_not, not_le]
            omega
          · simp only [decide_eq_true_eq]
            omega
      rw [hexit]
      rw [show ((16 * (k + 1)) % 256 + 16) % 256 = (16 * (k + 1 + 1)) % 256 from by omega]
      rw [ih (k + 1)]
      ring

/-- The ATTINY13 `WaitMs` blocks exactly 16 ticks (= 1 ms at 16 kHz) per
requested millisecond, for every duration; it resets `TCNT0` on entry and
handles the 8-bit counter's wrap every 16 ms via its `cnt == 0` case. -/
theorem waitms13_exact (ms : Nat) : WaitMs13 ms = 16 * ms := by
  have h := waitms13_go_spec ms 0
  simpa [WaitMs13] using h

/-- The ATTINY10 `WaitMs` blocks exactly `16*ms` ticks from any starting
counter phase `c0`, for durations within its documented 4 s maximum
(`ms*16` must not overflow the `uint16_t` target computation), including
when the 16-bit counter wraps during the call. -/
theorem waitms10_exact (c0 ms : Nat) (hc : c0 < 65536) (hms : ms ≤ 4095) :
    WaitMs10 c0 ms = 16 * ms := by
  simp only [WaitMs10]
  by_cases hw : c0 + ms * 16 < 65536
  · have hcnt : (c0 + ms * 16) % 65536 = c0 + ms * 16 := Nat.mod_eq_of_lt hw
    rw [hcnt]
    rw [if_neg (by omega)]
    apply busyWait_exit
    · omega
    · omega
    · intro u hu1 hu2
      simp only [decide_eq_false_iff_not, not_le]
      omega
    · simp only [decide_eq_true_eq]
      omega
  · have h16 : 16 ≤ c0 := by omega
    have hcnt : (c0 + ms * 16) % 65536 = c0 + ms * 16 - 65536 := by omega
    rw [hcnt]
    rw [if_pos (by omega)]
    have h1 : busyWait (fun u => decide ((c0 + u) % 65536 ≤ 1)) 65536 0 = 65536 - c0 := by
      apply busyWait_exit
      · omega
      · omega
      · intro u hu1 hu2
        simp only [decide_eq_false_iff_not, not_le]
        omega
      · simp only [decide_eq_true_eq]
        omega
    rw [h1]
    apply busyWait_exit
    · omega
    · omega
    · intro u hu1 hu2
      simp only [decide_eq_false_iff_not, not_le]
      omega
    · simp only [decide_eq_true_eq]
      omega

/-- C5 counterexample: the ATTINY10 `WaitMs` does NOT wait at least the
requested time for every requested duration.  At `ms = 4096` the
`uint16_t` product `ms*16` wraps to 0, `cnt` equals the current counter
value, and the call returns after 0 ticks instead of the requested
65536. -/
theorem c5_counterexample : WaitMs10 0 4096 = 0 ∧ 0 < 16 * 4096 := by decide

/-- C5 amended: in the idealised tick model (the loop observes the
free-running counter at every tick and straight-line code takes no time),
`WaitMs` blocks for exactly the requested number of milliseconds
(16 ticks each) -- so never less, and within the claimed one-wrap-period
bound -- tolerating counter wraparound during the call: the ATTINY13
variant for every requested duration, the ATTINY10 variant for every
starting counter phase and durations up to 4095 ms, within its documented
4 s maximum.  Beyond that bound the ATTINY10 variant under-waits
(see the counterexample). -/
theorem c5_amended_waitms_exact :
    (∀ ms : Nat, WaitMs13 ms = 16 * ms) ∧
    (∀ c0 ms : Nat, c0 < 65536 → ms ≤ 4095 → WaitMs10 c0 ms = 16 * ms) :=
  ⟨waitms13_exact, waitms10_exact⟩

/-- C5 amended witness: a 20 ms ATTINY13 wait (spanning one 8-bit counter
wrap) and a 3 ms ATTINY10 wait starting at counter phase 65530 (spanning
one 16-bit counter wrap). -/
theorem c5_amended_waitms_exact_witness :
    WaitMs13 20 = 16 * 20 ∧ WaitMs10 65530 3 = 16 * 3 :=
  ⟨c5_amended_waitms_exact.1 20,
   c5_amended_waitms_exact.2 65530 3 (by decide) (by decide)⟩
